import Mathlib

/-!
Verification development for the Trading Places cargo-slot calculation layer.

The definitions below are a shallow embedding of the Handlebars-helper layer in
the module initialization file (src/unnamed/part_000): `getSizeRating`,
`getCargoSlotsCalculationBreakdown`, the `calculateCargoSlots` helper,
`getFlagDescription` and `getEquilibriumStateLabel`.  JavaScript numbers are
embedded as rationals (ℚ); JavaScript truthiness on numbers (`x || d`,
`if (x)`) is modelled explicitly (0 is falsy); `??` is modelled by `Option.getD`.
Object maps are embedded as association lists queried with `List.lookup`.
-/

namespace TradingPlaces

/-- A settlement `size` field as seen by `getSizeRating`: a string code, a
number (any non-string value coerced by `Number(...)` to a numeric value), or
an absent field (`Number(undefined)` is `NaN`, which is falsy). -/
inductive SizeInput where
  | str (s : String)
  | num (n : ℚ)
  | missing
deriving Repr, DecidableEq

/-- The fixed size-code table of `getSizeRating` (keys are uppercase). -/
def sizeMap : List (String × ℚ) :=
  [("CS", 5), ("C", 4), ("T", 3), ("ST", 2), ("V", 1), ("F", 1), ("M", 5)]

/-- ASCII upper-casing, `String.toUpperCase()` on the ASCII codes used here. -/
def jsToUpper (s : String) : String := String.mk (s.data.map Char.toUpper)

/-- ASCII lower-casing, `String.toLowerCase()` on the ASCII codes used here. -/
def jsToLower (s : String) : String := String.mk (s.data.map Char.toLower)

/-- JavaScript truthy-or on an optional number: `x || d` where a present 0 is
falsy (`Number.NaN` is subsumed by the `none` case). -/
def jsOrQ (x : Option ℚ) (d : ℚ) : ℚ :=
  match x with
  | some v => if v = 0 then d else v
  | none => d

/-- Embedding of the `getSizeRating` helper: a string is uppercased and looked
up in `sizeMap` with `|| 1` fallback; a number is passed through `Number(size) || 1`;
a missing value coerces to `NaN` and falls back to 1. -/
def getSizeRating : SizeInput → ℚ
  | .str s => jsOrQ (sizeMap.lookup (jsToUpper s)) 1
  | .num n => if n = 0 then 1 else n
  | .missing => 1

/-- The settlement fields consumed by the cargo-slot calculation (other record
fields such as name, region or ruler are never read by it). A missing
`population` behaves as 0 under `props.population || 0`, so it is embedded
directly as 0. -/
structure Settlement where
  size : SizeInput
  population : ℚ
  flags : List String
deriving Repr, DecidableEq

/-- The normalized settlement properties consumed by the breakdown helper. -/
structure SettlementProps where
  sizeNumeric : ℚ
  population : ℚ
  productionCategories : List String
deriving Repr, DecidableEq

/-- Modelled from the spec: `DataManager.getSettlementProperties` is not under
src/ (only its caller in the breakdown helper is).  Per the spec's Settlement
Property Resolver contract, `sizeNumeric` is the fixed-table rating (same
table and rules as the in-src `getSizeRating` helper), `population` is passed
through, and `productionCategories` is the settlement's flag list lower-cased. -/
def getSettlementProperties (s : Settlement) : SettlementProps :=
  { sizeNumeric := getSizeRating s.size
  , population := s.population
  , productionCategories := s.flags.map jsToLower }

/-- The `tradingConfig.cargoSlots` configuration section. `basePerSize` keys
are written by rating (JS object keys are strings; the double lookup
`basePerSize?.[String(r)] ?? basePerSize?.[r]` reads the same entry, and an
absent table behaves like an empty one).  `hardCap` is `some` exactly when the
JS value satisfies `typeof hardCap === 'number'`. -/
structure CargoConfig where
  basePerSize : List (ℚ × ℚ)
  populationMultiplier : Option ℚ
  sizeMultiplier : Option ℚ
  hardCap : Option ℚ
  flagMultipliers : List (String × ℚ)
deriving Repr, DecidableEq

/-- Base slots: `config.basePerSize?.[String(r)] ?? config.basePerSize?.[r]
?? Math.max(1, props.sizeNumeric || 1)` (the `??` chain keeps a present 0
entry, hence `getD`, not truthy-or). -/
def baseSlots (props : SettlementProps) (config : CargoConfig) : ℚ :=
  (config.basePerSize.lookup props.sizeNumeric).getD
    (max 1 (if props.sizeNumeric = 0 then 1 else props.sizeNumeric))

/-- Population contribution: `(props.population || 0) * (config.populationMultiplier ?? 0)`
(`x || 0` is the identity on an embedded rational). -/
def popContribution (props : SettlementProps) (config : CargoConfig) : ℚ :=
  props.population * config.populationMultiplier.getD 0

/-- Size contribution: `(props.sizeNumeric || 0) * (config.sizeMultiplier ?? 0)`. -/
def sizeContribution (props : SettlementProps) (config : CargoConfig) : ℚ :=
  props.sizeNumeric * config.sizeMultiplier.getD 0

/-- The source adds an additive contribution to the running total only under
`if (contribution > 0)`. -/
def addIfPositive (t c : ℚ) : ℚ :=
  if 0 < c then t + c else t

/-- One flag iteration of the breakdown loop: look the lower-cased flag up in
`config.flagMultipliers` and multiply only under `if (multiplier && multiplier !== 1)`
(an entry of 0 is falsy and is skipped). -/
def flagStep (fm : List (String × ℚ)) (t : ℚ) (flag : String) : ℚ :=
  match fm.lookup (jsToLower flag) with
  | some m => if m ≠ 0 ∧ m ≠ 1 then t * m else t
  | none => t

/-- Running total after the base and the two guarded additive steps. -/
def totalBeforeFlags (props : SettlementProps) (config : CargoConfig) : ℚ :=
  addIfPositive (addIfPositive (baseSlots props config) (popContribution props config))
    (sizeContribution props config)

/-- Running total after the flag-multiplier loop, before the hard cap. -/
def preCapTotal (props : SettlementProps) (config : CargoConfig) : ℚ :=
  props.productionCategories.foldl (flagStep config.flagMultipliers)
    (totalBeforeFlags props config)

/-- Hard-cap clamp: `if (typeof hardCap === 'number' && currentTotal > hardCap) currentTotal = hardCap`. -/
def applyHardCap (cap : Option ℚ) (t : ℚ) : ℚ :=
  match cap with
  | some h => if h < t then h else t
  | none => t

/-- JavaScript `Math.round`: round half toward positive infinity. -/
def jsRound (x : ℚ) : ℤ :=
  Int.floor (x + 1 / 2)

/-- The final numeric slot count of the breakdown: `Math.max(1, Math.round(currentTotal))`.
The season parameter is accepted (as in the source) but never read. -/
def finalSlots (settlement : Settlement) (season : String) (config : CargoConfig) : ℤ :=
  max 1 (jsRound (applyHardCap config.hardCap
    (preCapTotal (getSettlementProperties settlement) config)))

/-- One entry of the calculation breakdown.  The source pushes display strings
holding the step's numeric content (`label`, `current`); the embedding keeps
that numeric content structurally. -/
inductive Step where
  | base (slots current : ℚ)
  | population (amount current : ℚ)
  | sizeBonus (amount current : ℚ)
  | flagMult (flag : String) (multiplier current : ℚ)
  | final (slots : ℤ) (cap : Option ℚ)
deriving Repr, DecidableEq

/-- Embedding of the `getCargoSlotsCalculationBreakdown` helper.  A missing
`dataManager` or missing `tradingConfig?.cargoSlots` section (the `none`
config) returns the empty list.  Otherwise the steps mirror the source: base
slots, guarded population and size contributions, the flag-multiplier loop in
flag-list order, the hard-cap clamp, and the final `max(1, round(total))`. -/
def getCargoSlotsCalculationBreakdown (settlement : Settlement) (season : String)
    (cargoSlotsConfig : Option CargoConfig) : List Step :=
  match cargoSlotsConfig with
  | none => []
  | some config =>
    let props := getSettlementProperties settlement
    let b := baseSlots props config
    let steps1 : List Step := [.base b b]
    let popC := popContribution props config
    let t1 := addIfPositive b popC
    let steps2 := if 0 < popC then steps1 ++ [.population popC t1] else steps1
    let szC := sizeContribution props config
    let t2 := addIfPositive t1 szC
    let steps3 := if 0 < szC then steps2 ++ [.sizeBonus szC t2] else steps2
    let folded := props.productionCategories.foldl
      (fun (acc : ℚ × List Step) flag =>
        match config.flagMultipliers.lookup (jsToLower flag) with
        | some m =>
          if m ≠ 0 ∧ m ≠ 1 then (acc.1 * m, acc.2 ++ [.flagMult flag m (acc.1 * m)]) else acc
        | none => acc)
      (t2, steps3)
    let t4 := applyHardCap config.hardCap folded.1
    folded.2 ++ [.final (max 1 (jsRound t4)) config.hardCap]

/-- The data-manager state read by the cargo-slot helpers: only the
`tradingConfig?.cargoSlots` section matters here. -/
structure DataManager where
  cargoSlots : Option CargoConfig
deriving Repr, DecidableEq

/-- Modelled from the spec: `DataManager.calculateCargoSlots` (the core called
by the in-src `calculateCargoSlots` Handlebars helper) is not under src/.  Per
the spec's error-handling design, an entirely absent/null config is the one
genuine contract violation and the core signals an invalid-argument condition;
otherwise it computes the slot count of the cargo-slot algorithm. -/
def calculateCargoSlotsCore (settlement : Settlement) (season : String)
    (config : Option CargoConfig) : Except String ℤ :=
  match config with
  | none => .error "invalid argument: cargo slot config missing"
  | some c => .ok (finalSlots settlement season c)

/-- Embedding of the `calculateCargoSlots` Handlebars helper: with no
dataManager it returns 0; otherwise it delegates to the core, and any thrown
error is caught and replaced by 0. -/
def calculateCargoSlotsHelper (dm : Option DataManager) (settlement : Settlement)
    (season : String) : ℤ :=
  match dm with
  | none => 0
  | some d =>
    match calculateCargoSlotsCore settlement season d.cargoSlots with
    | .ok n => n
    | .error _ => 0

/-- Multiplicative factor contributed by one flag (1 when the flag has no
applicable multiplier); used to characterize the flag loop order-independently. -/
def flagFactor (fm : List (String × ℚ)) (flag : String) : ℚ :=
  match fm.lookup (jsToLower flag) with
  | some m => if m ≠ 0 ∧ m ≠ 1 then m else 1
  | none => 1

/-- The equilibrium-state label table of `getEquilibriumStateLabel`. -/
def stateLabels : List (String × String) :=
  [("balanced", "Balanced"), ("oversupplied", "Oversupplied"),
   ("undersupplied", "Undersupplied"), ("desperate", "Desperate"),
   ("blocked", "Blocked")]

/-- Embedding of the `getEquilibriumStateLabel` helper: `stateLabels[state] || state`
(a present empty-string label would be falsy, preserving JS truthy-or). -/
def getEquilibriumStateLabel (state : String) : String :=
  match stateLabels.lookup state with
  | some label => if label = "" then state else label
  | none => state

/-- A flag-definition entry of the `sourceFlags` map.  The `availabilityBonus`
sub-object is flattened into its two optional fields (an absent sub-object is
both fields `none`); an absent category map behaves like an empty one. -/
structure FlagData where
  description : String
  supplyTransfer : Option ℚ := none
  demandTransfer : Option ℚ := none
  availabilityBonusProducers : Option ℚ := none
  availabilityBonusSeekers : Option ℚ := none
  categorySupplyTransfer : List (String × ℚ) := []
  categoryDemandTransfer : List (String × ℚ) := []
  contrabandChance : Option ℚ := none
  quality : Option ℚ := none
  uiTags : Option (List String) := none
deriving Repr, DecidableEq

/-- JavaScript truthiness of an optional numeric field: present and nonzero. -/
def qTruthy : Option ℚ → Bool
  | some v => v != 0
  | none => false

/-- Percent rendering `Math.round(value * 100)` as its decimal string. -/
def pctString (v : ℚ) : String :=
  toString (jsRound (v * 100))

/-- Sign prefix `value > 0 ? '+' : ''`. -/
def signPrefix (v : ℚ) : String :=
  if 0 < v then "+" else ""

/-- JavaScript `flag.charAt(0).toUpperCase() + flag.slice(1)`. -/
def jsCapitalize (s : String) : String :=
  match s.data with
  | [] => ""
  | c :: cs => String.mk (c.toUpper :: cs)

/-- The effect lines of the flag tooltip, in source push order (each numeric
field is rendered only when truthy; category transfers render every entry). -/
def flagEffectLines (fd : FlagData) : List String :=
  (if qTruthy fd.supplyTransfer then
    ["• +" ++ pctString (fd.supplyTransfer.getD 0) ++ "% supply transfer rate"] else []) ++
  (if qTruthy fd.demandTransfer then
    ["• +" ++ pctString (fd.demandTransfer.getD 0) ++ "% demand transfer rate"] else []) ++
  (if qTruthy fd.availabilityBonusProducers then
    ["• " ++ signPrefix (fd.availabilityBonusProducers.getD 0) ++
      pctString (fd.availabilityBonusProducers.getD 0) ++
      "% availability bonus for producers"] else []) ++
  (if qTruthy fd.availabilityBonusSeekers then
    ["• " ++ signPrefix (fd.availabilityBonusSeekers.getD 0) ++
      pctString (fd.availabilityBonusSeekers.getD 0) ++
      "% availability bonus for seekers"] else []) ++
  (fd.categorySupplyTransfer.map fun p =>
    "• " ++ signPrefix p.2 ++ pctString p.2 ++ "% " ++ p.1 ++ " supply transfer") ++
  (fd.categoryDemandTransfer.map fun p =>
    "• " ++ signPrefix p.2 ++ pctString p.2 ++ "% " ++ p.1 ++ " demand transfer") ++
  (if qTruthy fd.contrabandChance then
    ["• +" ++ pctString (fd.contrabandChance.getD 0) ++ "% chance of contraband goods"] else []) ++
  (if qTruthy fd.quality then
    ["• +" ++ pctString (fd.quality.getD 0 - 1) ++ "% quality multiplier"] else []) ++
  (match fd.uiTags with
   | some tags => ["• UI tags: " ++ String.intercalate ", " tags]
   | none => [])

/-- The formatted tooltip for a flag found in `sourceFlags`. -/
def formatFlagTooltip (flag : String) (fd : FlagData) : String :=
  "<strong>" ++ jsCapitalize flag ++ "</strong>\n\n" ++ fd.description ++
    "\n\n<strong>Trading Effects:</strong>\n" ++
    String.intercalate "\n" (flagEffectLines fd)

/-- Embedding of the `getFlagDescription` helper: with no dataManager, no
`sourceFlags` map, or a flag absent from the map, it returns the generic
fallback string; otherwise it formats the tooltip. -/
def getFlagDescription (sourceFlags : Option (List (String × FlagData)))
    (flag : String) : String :=
  match sourceFlags with
  | none => flag ++ " settlement"
  | some sf =>
    match sf.lookup flag with
    | none => flag ++ " settlement"
    | some fd => formatFlagTooltip flag fd

/-! ### Helper lemmas -/

/-- Values produced by an association-list lookup are values of the list. -/
theorem lookup_mem_values (l : List (String × ℚ)) (k : String) (v : ℚ)
    (h : l.lookup k = some v) : v ∈ l.map Prod.snd := by
  induction l with
  | nil => simp [List.lookup] at h
  | cons p t ih =>
    obtain ⟨pk, pv⟩ := p
    rw [List.lookup_cons] at h
    cases hbeq : k == pk with
    | true =>
      rw [hbeq] at h
      simp only [Option.some.injEq] at h
      simp [h]
    | false =>
      rw [hbeq] at h
      simp [ih h]

/-- The flag loop rewritten multiplicatively: folding `flagStep` multiplies the
starting total by the product of the per-flag factors. -/
theorem foldl_flagStep_eq (fm : List (String × ℚ)) (l : List String) (t : ℚ) :
    l.foldl (flagStep fm) t = t * (l.map (flagFactor fm)).prod := by
  induction l generalizing t with
  | nil => simp
  | cons f l ih =>
    rw [List.foldl_cons, ih, List.map_cons, List.prod_cons]
    have hstep : flagStep fm t f = t * flagFactor fm f := by
      unfold flagStep flagFactor
      cases h : fm.lookup (jsToLower f) with
      | none => simp
      | some m =>
        by_cases hm : m ≠ 0 ∧ m ≠ 1 <;> simp [hm]
    rw [hstep, mul_assoc]

/-! ### Claim theorems -/

/-- C1: for the settlement of size code "T" with population 1000 and flag
list ["trade"], under the config with basePerSize 3 at rating 3, population
multiplier 0.001, size multiplier 0.5, hard cap 20 and trade multiplier 1.2,
the breakdown reports base 3, a population contribution of 1.0 (total 4),
a size bonus of 1.5 (total 5.5) and the trade multiplication to 6.6; the
pre-cap total 6.6 is below the cap, and the final result is exactly 7. -/
theorem exampleScenario_breakdown :
    getCargoSlotsCalculationBreakdown ⟨.str "T", 1000, ["trade"]⟩ "spring"
      (some ⟨[(3, 3)], some (1 / 1000), some (1 / 2), some 20, [("trade", 6 / 5)]⟩) =
      [.base 3 3, .population 1 4, .sizeBonus (3 / 2) (11 / 2),
        .flagMult "trade" (6 / 5) (33 / 5), .final 7 (some 20)] ∧
    preCapTotal (getSettlementProperties ⟨.str "T", 1000, ["trade"]⟩)
      ⟨[(3, 3)], some (1 / 1000), some (1 / 2), some 20, [("trade", 6 / 5)]⟩ = 33 / 5 ∧
    (33 : ℚ) / 5 ≤ 20 ∧
    finalSlots ⟨.str "T", 1000, ["trade"]⟩ "spring"
      ⟨[(3, 3)], some (1 / 1000), some (1 / 2), some 20, [("trade", 6 / 5)]⟩ = 7 := by
  have hprops : getSettlementProperties ⟨.str "T", 1000, ["trade"]⟩ = ⟨3, 1000, ["trade"]⟩ := by
    decide
  have hlow : (jsToLower "trade" == "trade") = true := by decide
  refine ⟨?_, ?_, by norm_num, ?_⟩
  · simp only [getCargoSlotsCalculationBreakdown, hprops]
    norm_num [baseSlots, popContribution, sizeContribution, addIfPositive, applyHardCap, jsRound,
      List.lookup, List.foldl, hlow]
  · simp only [preCapTotal, totalBeforeFlags, hprops]
    norm_num [baseSlots, popContribution, sizeContribution, addIfPositive, flagStep,
      List.lookup, List.foldl, hlow]
  · simp only [finalSlots, preCapTotal, totalBeforeFlags, hprops]
    norm_num [baseSlots, popContribution, sizeContribution, addIfPositive, applyHardCap, jsRound,
      flagStep, List.lookup, List.foldl, hlow]

/-- C3: the size-rating function looks a string code up case-insensitively in
the fixed table (CS 5, C 4, T 3, ST 2, V 1, F 1, M 5), yields 1 for unknown or
missing codes, and passes a number n through as n, with 0 (and the NaN of a
missing field) replaced by 1. -/
theorem sizeRating_spec :
    (getSizeRating (.str "cs") = 5 ∧ getSizeRating (.str "CS") = 5 ∧
      getSizeRating (.str "Cs") = 5) ∧
    (getSizeRating (.str "c") = 4 ∧ getSizeRating (.str "C") = 4) ∧
    (getSizeRating (.str "t") = 3 ∧ getSizeRating (.str "T") = 3) ∧
    (getSizeRating (.str "st") = 2 ∧ getSizeRating (.str "St") = 2 ∧
      getSizeRating (.str "ST") = 2) ∧
    (getSizeRating (.str "v") = 1 ∧ getSizeRating (.str "V") = 1) ∧
    (getSizeRating (.str "f") = 1 ∧ getSizeRating (.str "F") = 1) ∧
    (getSizeRating (.str "m") = 5 ∧ getSizeRating (.str "M") = 5) ∧
    (∀ s : String, sizeMap.lookup (jsToUpper s) = none → getSizeRating (.str s) = 1) ∧
    (∀ n : ℚ, n ≠ 0 → getSizeRating (.num n) = n) ∧
    (getSizeRating (.num 0) = 1 ∧ getSizeRating .missing = 1) := by
  refine ⟨by decide, by decide, by decide, by decide, by decide, by decide, by decide,
    ?_, ?_, by decide⟩
  · intro s h
    simp [getSizeRating, jsOrQ, h]
  · intro n h
    simp [getSizeRating, h]

/-- Witness for sizeRating_spec: the unknown code "XX" yields 1 and the
numeric input 7 is passed through. -/
theorem sizeRating_spec_witness :
    getSizeRating (.str "XX") = 1 ∧ getSizeRating (.num 7) = 7 := by
  refine ⟨?_, ?_⟩
  · exact sizeRating_spec.2.2.2.2.2.2.2.1 "XX" (by decide)
  · exact sizeRating_spec.2.2.2.2.2.2.2.2.1 7 (by norm_num)

/-- C7 (amended): for every settlement whose size field is a string code, the
derived numeric size rating lies in the interval [1,5]; a numeric size field
is passed through unchanged (0 becoming 1) and can therefore fall outside. -/
theorem sizeRating_str_in_range (s : String) :
    1 ≤ getSizeRating (.str s) ∧ getSizeRating (.str s) ≤ 5 := by
  cases h : sizeMap.lookup (jsToUpper s) with
  | none => simp [getSizeRating, jsOrQ, h]
  | some v =>
    have hv := lookup_mem_values sizeMap (jsToUpper s) v h
    have hcases : v = 5 ∨ v = 4 ∨ v = 3 ∨ v = 2 ∨ v = 1 ∨ v = 5 := by
      simpa [sizeMap] using hv
    simp only [getSizeRating, jsOrQ, h]
    rcases hcases with h1 | h1 | h1 | h1 | h1 | h1 <;> subst h1 <;> norm_num

/-- C7 counterexample: a settlement with the numeric size 7 gets rating 7,
which is outside [1,5], so the rating is not always in [1,5]. -/
theorem sizeRating_out_of_range_counterexample :
    getSizeRating (.num 7) = 7 ∧ ¬ getSizeRating (.num 7) ≤ 5 := by
  norm_num [getSizeRating]

/-- C10: the equilibrium-state labeler maps exactly the five internal states
to their capitalized labels and returns every other input unchanged. -/
theorem equilibriumStateLabel_spec :
    getEquilibriumStateLabel "balanced" = "Balanced" ∧
    getEquilibriumStateLabel "oversupplied" = "Oversupplied" ∧
    getEquilibriumStateLabel "undersupplied" = "Undersupplied" ∧
    getEquilibriumStateLabel "desperate" = "Desperate" ∧
    getEquilibriumStateLabel "blocked" = "Blocked" ∧
    (∀ s : String,
      s ∉ ["balanced", "oversupplied", "undersupplied", "desperate", "blocked"] →
      getEquilibriumStateLabel s = s) := by
  refine ⟨by decide, by decide, by decide, by decide, by decide, ?_⟩
  intro s h
  simp only [List.mem_cons, List.not_mem_nil, or_false, not_or] at h
  obtain ⟨h1, h2, h3, h4, h5⟩ := h
  have e1 : (s == "balanced") = false := by simpa using h1
  have e2 : (s == "oversupplied") = false := by simpa using h2
  have e3 : (s == "undersupplied") = false := by simpa using h3
  have e4 : (s == "desperate") = false := by simpa using h4
  have e5 : (s == "blocked") = false := by simpa using h5
  simp [getEquilibriumStateLabel, stateLabels, List.lookup, e1, e2, e3, e4, e5]

/-- Witness for equilibriumStateLabel_spec: the out-of-table state "shortage"
is returned unchanged. -/
theorem equilibriumStateLabel_spec_witness :
    getEquilibriumStateLabel "shortage" = "shortage" :=
  equilibriumStateLabel_spec.2.2.2.2.2 "shortage" (by decide)

/-- C2: whenever the config's hardCap is a number H and the pre-cap running
total exceeds H, the total is clamped to H and the final result is exactly
max(1, round(H)). -/
theorem hardCap_clamps (settlement : Settlement) (season : String) (config : CargoConfig)
    (H : ℚ) (hcap : config.hardCap = some H)
    (hover : H < preCapTotal (getSettlementProperties settlement) config) :
    finalSlots settlement season config = max 1 (jsRound H) := by
  unfold finalSlots
  rw [hcap]
  simp [applyHardCap, hover]

/-- Witness for hardCap_clamps: the example scenario with hard cap 5 has
pre-cap total 6.6 and clamps to the final result 5. -/
theorem hardCap_clamps_witness :
    (5 : ℚ) < preCapTotal (getSettlementProperties ⟨.str "T", 1000, ["trade"]⟩)
      ⟨[(3, 3)], some (1 / 1000), some (1 / 2), some 5, [("trade", 6 / 5)]⟩ ∧
    finalSlots ⟨.str "T", 1000, ["trade"]⟩ "spring"
      ⟨[(3, 3)], some (1 / 1000), some (1 / 2), some 5, [("trade", 6 / 5)]⟩ = 5 := by
  have hprops : getSettlementProperties ⟨.str "T", 1000, ["trade"]⟩ = ⟨3, 1000, ["trade"]⟩ := by
    decide
  have hlow : (jsToLower "trade" == "trade") = true := by decide
  have hpre : preCapTotal (getSettlementProperties ⟨.str "T", 1000, ["trade"]⟩)
      ⟨[(3, 3)], some (1 / 1000), some (1 / 2), some 5, [("trade", 6 / 5)]⟩ = 33 / 5 := by
    simp only [preCapTotal, totalBeforeFlags, hprops]
    norm_num [baseSlots, popContribution, sizeContribution, addIfPositive, flagStep,
      List.lookup, List.foldl, hlow]
  have hover : (5 : ℚ) < preCapTotal (getSettlementProperties ⟨.str "T", 1000, ["trade"]⟩)
      ⟨[(3, 3)], some (1 / 1000), some (1 / 2), some 5, [("trade", 6 / 5)]⟩ := by
    rw [hpre]; norm_num
  refine ⟨hover, ?_⟩
  have h := hardCap_clamps ⟨.str "T", 1000, ["trade"]⟩ "spring"
    ⟨[(3, 3)], some (1 / 1000), some (1 / 2), some 5, [("trade", 6 / 5)]⟩ 5 rfl hover
  rw [h]
  have h5 : jsRound 5 = 5 := by norm_num [jsRound]
  rw [h5]
  rfl

/-- C4 counterexample: a flagMultipliers entry equal to 0 is skipped, not
applied: with running total 3 and entry 0 for flag "x", the loop leaves the
total at 3 rather than multiplying it to 3 * 0 = 0, and the breakdown records
no flag step for "x". -/
theorem zeroFlagMultiplier_counterexample :
    flagStep [("x", 0)] 3 "x" = 3 ∧
    ¬ flagStep [("x", 0)] 3 "x" = 3 * 0 ∧
    getCargoSlotsCalculationBreakdown ⟨.str "T", 0, ["x"]⟩ "spring"
      (some ⟨[(3, 3)], none, none, none, [("x", 0)]⟩) = [.base 3 3, .final 3 none] := by
  have hx : (jsToLower "x" == "x") = true := by decide
  have hprops : getSettlementProperties ⟨.str "T", 0, ["x"]⟩ = ⟨3, 0, ["x"]⟩ := by decide
  refine ⟨?_, ?_, ?_⟩
  · norm_num [flagStep, List.lookup, hx]
  · norm_num [flagStep, List.lookup, hx]
  · simp only [getCargoSlotsCalculationBreakdown, hprops]
    norm_num [baseSlots, popContribution, sizeContribution, addIfPositive, applyHardCap,
      jsRound, List.lookup, List.foldl, hx]

/-- C4 (amended): for each flag in list order, a flagMultipliers entry that
exists, is nonzero and differs from 1 multiplies the running total by that
entry; a flag with no entry, a zero entry, or an entry equal to 1 leaves the
total unchanged. -/
theorem flagMultiplier_step_behavior (fm : List (String × ℚ)) (flag : String)
    (flags : List String) (t : ℚ) :
    (∀ m, fm.lookup (jsToLower flag) = some m → m ≠ 0 → m ≠ 1 →
      (flag :: flags).foldl (flagStep fm) t = flags.foldl (flagStep fm) (t * m)) ∧
    (fm.lookup (jsToLower flag) = none →
      (flag :: flags).foldl (flagStep fm) t = flags.foldl (flagStep fm) t) ∧
    (fm.lookup (jsToLower flag) = some 0 →
      (flag :: flags).foldl (flagStep fm) t = flags.foldl (flagStep fm) t) ∧
    (fm.lookup (jsToLower flag) = some 1 →
      (flag :: flags).foldl (flagStep fm) t = flags.foldl (flagStep fm) t) := by
  refine ⟨?_, ?_, ?_, ?_⟩
  · intro m hm h0 h1
    rw [List.foldl_cons]
    simp [flagStep, hm, h0, h1]
  · intro hm
    rw [List.foldl_cons]
    simp [flagStep, hm]
  · intro hm
    rw [List.foldl_cons]
    simp [flagStep, hm]
  · intro hm
    rw [List.foldl_cons]
    simp [flagStep, hm]

/-- Witness for flagMultiplier_step_behavior: flag "A" with lower-cased entry 2
multiplies a running total of 3 to 6. -/
theorem flagMultiplier_step_behavior_witness :
    ["A"].foldl (flagStep [("a", 2)]) 3 = 6 := by
  have h := (flagMultiplier_step_behavior [("a", 2)] "A" [] 3).1 2 (by decide)
    (by norm_num) (by norm_num)
  rw [h]
  norm_num [List.foldl]

/-- C5 (amended): the population and size contributions are added to the
running total only when strictly positive; a zero or negative contribution (in
particular one produced by a zero or negative multiplier) leaves the total
unchanged, and an absent multiplier makes the contribution zero. -/
theorem additiveContributions_behavior (props : SettlementProps) (config : CargoConfig) :
    (0 < popContribution props config → 0 < sizeContribution props config →
      totalBeforeFlags props config =
        baseSlots props config + popContribution props config + sizeContribution props config) ∧
    (popContribution props config ≤ 0 → 0 < sizeContribution props config →
      totalBeforeFlags props config = baseSlots props config + sizeContribution props config) ∧
    (0 < popContribution props config → sizeContribution props config ≤ 0 →
      totalBeforeFlags props config = baseSlots props config + popContribution props config) ∧
    (popContribution props config ≤ 0 → sizeContribution props config ≤ 0 →
      totalBeforeFlags props config = baseSlots props config) ∧
    (config.populationMultiplier = none → popContribution props config = 0) ∧
    (config.sizeMultiplier = none → sizeContribution props config = 0) := by
  refine ⟨?_, ?_, ?_, ?_, ?_, ?_⟩
  · intro h1 h2
    simp [totalBeforeFlags, addIfPositive, h1, h2]
  · intro h1 h2
    simp [totalBeforeFlags, addIfPositive, not_lt.mpr h1, h2]
  · intro h1 h2
    simp [totalBeforeFlags, addIfPositive, h1, not_lt.mpr h2]
  · intro h1 h2
    simp [totalBeforeFlags, addIfPositive, not_lt.mpr h1, not_lt.mpr h2]
  · intro h
    simp [popContribution, h]
  · intro h
    simp [sizeContribution, h]

/-- Witness for additiveContributions_behavior: at the example scenario both
contributions are positive and the total is 3 + 1 + 1.5. -/
theorem additiveContributions_behavior_witness :
    0 < popContribution ⟨3, 1000, ["trade"]⟩
      ⟨[(3, 3)], some (1 / 1000), some (1 / 2), none, []⟩ ∧
    0 < sizeContribution ⟨3, 1000, ["trade"]⟩
      ⟨[(3, 3)], some (1 / 1000), some (1 / 2), none, []⟩ ∧
    totalBeforeFlags ⟨3, 1000, ["trade"]⟩
      ⟨[(3, 3)], some (1 / 1000), some (1 / 2), none, []⟩ = 3 + 1 + 3 / 2 := by
  have hpop : (0 : ℚ) < popContribution ⟨3, 1000, ["trade"]⟩
      ⟨[(3, 3)], some (1 / 1000), some (1 / 2), none, []⟩ := by
    norm_num [popContribution]
  have hsize : (0 : ℚ) < sizeContribution ⟨3, 1000, ["trade"]⟩
      ⟨[(3, 3)], some (1 / 1000), some (1 / 2), none, []⟩ := by
    norm_num [sizeContribution]
  refine ⟨hpop, hsize, ?_⟩
  have h := (additiveContributions_behavior ⟨3, 1000, ["trade"]⟩
    ⟨[(3, 3)], some (1 / 1000), some (1 / 2), none, []⟩).1 hpop hsize
  rw [h]
  norm_num [baseSlots, popContribution, sizeContribution, List.lookup, beq_self_eq_true]

/-- C5 counterexample: with population 1000 and populationMultiplier -0.001
the computed contribution -1 is not applied: the running total stays at the
base 3 (and the final result is 3) instead of the claimed 3 + (-1) = 2. -/
theorem negativeContribution_counterexample :
    totalBeforeFlags (getSettlementProperties ⟨.str "T", 1000, []⟩)
      ⟨[(3, 3)], some (-(1 / 1000)), none, none, []⟩ = 3 ∧
    ¬ totalBeforeFlags (getSettlementProperties ⟨.str "T", 1000, []⟩)
        ⟨[(3, 3)], some (-(1 / 1000)), none, none, []⟩ =
      baseSlots (getSettlementProperties ⟨.str "T", 1000, []⟩)
        ⟨[(3, 3)], some (-(1 / 1000)), none, none, []⟩ +
      popContribution (getSettlementProperties ⟨.str "T", 1000, []⟩)
        ⟨[(3, 3)], some (-(1 / 1000)), none, none, []⟩ ∧
    finalSlots ⟨.str "T", 1000, []⟩ "spring"
      ⟨[(3, 3)], some (-(1 / 1000)), none, none, []⟩ = 3 := by
  have hprops : getSettlementProperties ⟨.str "T", 1000, []⟩ = ⟨3, 1000, []⟩ := by decide
  refine ⟨?_, ?_, ?_⟩
  · rw [hprops]
    norm_num [totalBeforeFlags, addIfPositive, baseSlots, popContribution, sizeContribution,
      List.lookup, beq_self_eq_true]
  · rw [hprops]
    norm_num [totalBeforeFlags, addIfPositive, baseSlots, popContribution, sizeContribution,
      List.lookup, beq_self_eq_true]
  · simp only [finalSlots, preCapTotal, totalBeforeFlags, hprops]
    norm_num [baseSlots, popContribution, sizeContribution, addIfPositive, applyHardCap,
      jsRound, List.lookup, List.foldl, beq_self_eq_true]

/-- C6: permuting the settlement's flag list never changes the final numeric
slot count, for every size, population, season and config. -/
theorem cargoSlots_perm_invariant (size : SizeInput) (pop : ℚ) (flags1 flags2 : List String)
    (season : String) (config : CargoConfig) (h : flags1.Perm flags2) :
    finalSlots ⟨size, pop, flags1⟩ season config =
      finalSlots ⟨size, pop, flags2⟩ season config := by
  unfold finalSlots preCapTotal
  rw [foldl_flagStep_eq, foldl_flagStep_eq]
  have hperm : (((⟨size, pop, flags1⟩ : Settlement).flags.map jsToLower).map
      (flagFactor config.flagMultipliers)).Perm
      ((((⟨size, pop, flags2⟩ : Settlement).flags.map jsToLower)).map
      (flagFactor config.flagMultipliers)) :=
    (h.map jsToLower).map (flagFactor config.flagMultipliers)
  have hprod := hperm.prod_eq
  simp only [getSettlementProperties] at hprod ⊢
  rw [hprod]
  rfl

/-- Witness for cargoSlots_perm_invariant: swapping two flags gives the same
final result. -/
theorem cargoSlots_perm_invariant_witness :
    (["trade", "port"].Perm ["port", "trade"]) ∧
    finalSlots ⟨.str "T", 1000, ["trade", "port"]⟩ "spring"
      ⟨[(3, 3)], none, none, none, [("trade", 6 / 5), ("port", 2)]⟩ =
    finalSlots ⟨.str "T", 1000, ["port", "trade"]⟩ "spring"
      ⟨[(3, 3)], none, none, none, [("trade", 6 / 5), ("port", 2)]⟩ :=
  ⟨by decide, cargoSlots_perm_invariant (.str "T") 1000 ["trade", "port"] ["port", "trade"]
    "spring" ⟨[(3, 3)], none, none, none, [("trade", 6 / 5), ("port", 2)]⟩ (by decide)⟩

/-- C8 counterexample: with the cargo-slot config section entirely absent the
in-src helpers do not signal anything: the breakdown helper returns the empty
list and the slot helper returns the number 0 (both with no dataManager at all
and with a dataManager whose cargoSlots section is missing). -/
theorem missingConfig_counterexample :
    getCargoSlotsCalculationBreakdown ⟨.str "T", 1000, ["trade"]⟩ "spring" none = [] ∧
    calculateCargoSlotsHelper none ⟨.str "T", 1000, ["trade"]⟩ "spring" = 0 ∧
    calculateCargoSlotsHelper (some ⟨none⟩) ⟨.str "T", 1000, ["trade"]⟩ "spring" = 0 :=
  ⟨rfl, rfl, rfl⟩

/-- C8 (amended): an entirely absent/null config is signalled as an
invalid-argument error by the spec-modelled calculation core, but the
in-repository helper layer does not propagate it: the breakdown helper returns
an empty list and the slot helper catches the error and returns 0. -/
theorem missingConfig_behavior (settlement : Settlement) (season : String) :
    calculateCargoSlotsCore settlement season none =
      .error "invalid argument: cargo slot config missing" ∧
    getCargoSlotsCalculationBreakdown settlement season none = [] ∧
    calculateCargoSlotsHelper none settlement season = 0 ∧
    calculateCargoSlotsHelper (some ⟨none⟩) settlement season = 0 :=
  ⟨rfl, rfl, rfl, rfl⟩

/-- C9: a flag with no sourceFlags entry (or with the whole sourceFlags map
unavailable) contributes no effect lines and produces the generic fallback
description, without any error. -/
theorem unknownFlag_fallback (sf : List (String × FlagData)) (flag : String)
    (h : sf.lookup flag = none) :
    getFlagDescription (some sf) flag = flag ++ " settlement" ∧
    getFlagDescription none flag = flag ++ " settlement" :=
  ⟨by simp [getFlagDescription, h], rfl⟩

/-- Witness for unknownFlag_fallback: a one-entry map that lacks "mystery". -/
theorem unknownFlag_fallback_witness :
    getFlagDescription (some [("trade", { description := "hub" })]) "mystery" =
      "mystery settlement" :=
  (unknownFlag_fallback [("trade", { description := "hub" })] "mystery" (by decide)).1

end TradingPlaces
